import Mathlib

/-!
Verification of the attendance-tracker data-access layer (`src/app.py`).

The app is a Streamlit front-end over a PostgreSQL store.  We shallowly embed
the database state (the `students` and `attendance` tables from
`init_database`) and each repository function (`add_student`, `delete_student`,
`save_attendance`, `load_students`, `load_attendance`, `get_attendance_stats`,
`get_student_report`) as pure Lean functions over that state.

Modelling conventions:
- SQL `DATE` and `TIME` values are modelled as `Nat` (only equality and order
  matter to the code).
- `date.today()` / `datetime.now().time()` are non-deterministic inputs, so
  they are passed as explicit parameters (an injected clock).
- A failed `psycopg2.connect` (which makes `get_connection` return `None`) is
  modelled by passing `none : Option DB` for the connection.
- An arbitrary runtime exception raised by a `cursor.execute` call is modelled
  by an explicit failure oracle (`fail` parameter); `psycopg2` error classes
  (unique-key violation, foreign-key violation, anything else) are the
  constructors of `PgErr`.
- The `get_db_cursor` context manager commits on normal completion of the
  body, and on an exception rolls back, reports, and suppresses it (so the
  caller falls through to the code after the `with` block).  It is embedded as
  a combinator taking the body as an `Except`-valued state transformer.
- Python float arithmetic on the report pages is modelled with `ℚ`; the
  quantities involved are quotients of small naturals.
-/

namespace AttendanceTracker

/-- A row of the `students` table (`id TEXT PRIMARY KEY, name TEXT NOT NULL,
`department TEXT NOT NULL`); `created_at` is never read by the app and is
omitted. -/
structure Student where
  id : String
  name : String
  department : String
deriving Repr, DecidableEq

/-- A row of the `attendance` table; the serial `id` and `created_at` columns
are never read by the app and are omitted. -/
structure AttRow where
  student_id : String
  student_name : String
  date : Nat
  time : Nat
  status : String
deriving Repr, DecidableEq

/-- The database state: the two tables created by `init_database`. -/
structure DB where
  students : List Student
  attendance : List AttRow
deriving Repr, DecidableEq

/-- The state of a fresh store right after `init_database` has created the
two (empty) tables. -/
def emptyDB : DB := ⟨[], []⟩

/-- Exceptions of `psycopg2` that matter to this code: `UniqueViolation`
(primary-key conflict on `students.id`), `ForeignKeyViolation`
(`attendance.student_id REFERENCES students(id)`), and any other
`Exception` carrying its message. -/
inductive PgErr where
  | uniqueViolation
  | fkViolation
  | otherErr (msg : String)
deriving Repr, DecidableEq

/-- The message `str(e)` of a `psycopg2` exception, used by the generic
`except Exception as e` branch of `add_student`. -/
def pgMsg : PgErr → String
  | .uniqueViolation => "duplicate key value violates unique constraint"
  | .fkViolation => "insert or update on table attendance violates foreign key constraint"
  | .otherErr msg => msg

/-- Embedding of the `get_db_cursor` context manager together with the
`if cursor:` guard used at every call site: when the connection is down the
body is skipped and the caller falls through to its fallback return; when the
body raises, the transaction is rolled back (state unchanged), the exception
is suppressed, and the caller again falls through to its fallback; on normal
completion the transaction is committed. -/
def get_db_cursor (conn : Option DB) (body : DB → Except PgErr (α × DB))
    (fallback : α) : α × Option DB :=
  match conn with
  | none => (fallback, none)
  | some db =>
    match body db with
    | .ok (a, db2) => (a, some db2)
    | .error _ => (fallback, some db)

/-- Does a student row with this primary key exist? (`students.id` is the
primary key, so it determines the row.) -/
def studentIdExists (db : DB) (sid : String) : Bool :=
  db.students.any (fun s => s.id == sid)

/-- Semantics of `INSERT INTO students (id, name, department) VALUES (...)`:
the primary key on `id` makes the insert raise `UniqueViolation` when a row
with that id already exists; otherwise the row is appended. -/
def sqlInsertStudent (db : DB) (sid nm dept : String) : Except PgErr DB :=
  if studentIdExists db sid then .error .uniqueViolation
  else .ok ⟨db.students ++ [⟨sid, nm, dept⟩], db.attendance⟩

/-- Semantics of `DELETE FROM students WHERE id = %s` under the
`ON DELETE CASCADE` of the schema: when a student row with this id exists it is removed
together with every attendance row referencing it; when no row matches, the
statement affects nothing (and the cascade does not fire). -/
def sqlDeleteStudentCascade (db : DB) (sid : String) : DB :=
  if studentIdExists db sid then
    ⟨db.students.filter (fun s => !(s.id == sid)),
     db.attendance.filter (fun a => !(a.student_id == sid))⟩
  else db

/-- Semantics of `INSERT INTO attendance (student_id, student_name, date,
time, status) VALUES (...)`: the foreign key
`student_id REFERENCES students(id)` makes the insert raise
`ForeignKeyViolation` when no such student exists; otherwise the row is
appended.  There is no check constraint on `status`: any text is accepted. -/
def sqlInsertAttendance (db : DB) (sid nm : String) (d t : Nat)
    (status : String) : Except PgErr DB :=
  if studentIdExists db sid then
    .ok ⟨db.students, db.attendance ++ [⟨sid, nm, d, t, status⟩]⟩
  else .error .fkViolation

/-- Function `add_student` (src/app.py:90-104).  The body tries the insert and catches
`UniqueViolation` and generic exceptions itself, returning `(ok?, message)`
pairs; after the `with` block it returns the connection-failure message.
`fail = some e` injects a generic exception with message `e` into the
`cursor.execute` call. -/
def add_student (conn : Option DB) (fail : Option String)
    (student_id name department : String) : (Bool × String) × Option DB :=
  get_db_cursor conn
    (fun db =>
      match (match fail with
             | some e => .error (.otherErr e)
             | none => sqlInsertStudent db student_id name department :
             Except PgErr DB) with
      | .ok db2 => .ok ((true, "Student added successfully!"), db2)
      | .error .uniqueViolation => .ok ((false, "Student ID already exists!"), db)
      | .error err => .ok ((false, "Error: " ++ pgMsg err), db))
    (false, "Database connection failed")

/-- Function `delete_student` (src/app.py:106-112).  Executes the `DELETE` and returns
`True` without inspecting the affected-row count; returns `False` only by
falling through the `with` block (connection down, or exception suppressed by
`get_db_cursor`).  `fail = true` injects an exception into the execute. -/
def delete_student (conn : Option DB) (fail : Bool) (student_id : String) :
    Bool × Option DB :=
  get_db_cursor conn
    (fun db =>
      if fail then .error (.otherErr "storage failure")
      else .ok (true, sqlDeleteStudentCascade db student_id))
    false

/-- Function `save_attendance` (src/app.py:145-158).  Captures the current date and
time (passed here as parameters), inserts the row and returns `True`; any
exception (including a foreign-key violation for an unknown student) is
suppressed by `get_db_cursor` and the function falls through to `return
False`.  No validation of `status` is performed. -/
def save_attendance (conn : Option DB) (fail : Bool)
    (student_id student_name status : String)
    (current_date current_time : Nat) : Bool × Option DB :=
  get_db_cursor conn
    (fun db =>
      if fail then .error (.otherErr "storage failure")
      else
        match sqlInsertAttendance db student_id student_name current_date
            current_time status with
        | .ok db2 => .ok (true, db2)
        | .error err => .error err)
    false

/-- Output order of `SELECT ... FROM students ORDER BY name`. -/
def studentOrder (a b : Student) : Bool :=
  a.name ≤ b.name

/-- Function `load_students` (src/app.py:80-88): all students ordered by name;
an empty table (with the same columns) when the connection is down. -/
def load_students (conn : Option DB) : List Student :=
  (get_db_cursor conn (fun db => .ok (db.students.mergeSort studentOrder, db))
    []).1

/-- The `WHERE` clause built by `load_attendance`: the date condition is
added when `date_filter` is truthy (a `date` object always is, `None` is
not); the student and status conditions are added when the filter is truthy
(non-`None`, non-empty) and not the literal string `"All"`. -/
def matchesFilters (date_filter : Option Nat)
    (student_filter status_filter : Option String) (a : AttRow) : Bool :=
  (match date_filter with
   | none => true
   | some d => a.date == d) &&
  (match student_filter with
   | none => true
   | some s => if s == "" || s == "All" then true else a.student_id == s) &&
  (match status_filter with
   | none => true
   | some s => if s == "" || s == "All" then true else a.status == s)

/-- Output order of `ORDER BY date DESC, time DESC`: `a` comes no later than
`b` when the (date, time) key of `a` is lexicographically at least that of
`b`. -/
def attOrder (a b : AttRow) : Bool :=
  b.date < a.date || (b.date == a.date && b.time ≤ a.time)

/-- Function `load_attendance` (src/app.py:114-143): the attendance rows matching the
dynamically-built conjunctive `WHERE` clause, ordered by date descending then
time descending; an empty table when the connection is down. -/
def load_attendance (conn : Option DB) (date_filter : Option Nat)
    (student_filter status_filter : Option String) : List AttRow :=
  (get_db_cursor conn
    (fun db =>
      .ok ((db.attendance.filter
              (matchesFilters date_filter student_filter status_filter)).mergeSort
              attOrder, db))
    []).1

/-- The dictionary returned by `get_attendance_stats`. -/
structure Stats where
  total : Nat
  present : Nat
  absent : Nat
  late : Nat
  today_present : Nat
  today_absent : Nat
  today_late : Nat
deriving Repr, DecidableEq

/-- Count of rows with a given status in a row set, i.e. the value the
`GROUP BY status` dictionaries give for key `s` (0 when the key is absent,
via `.get(s, 0)`). -/
def countStatus (rows : List AttRow) (s : String) : Nat :=
  rows.countP (fun a => a.status == s)

/-- Function `get_attendance_stats` (src/app.py:174-208): total row count,
per-status counts overall and restricted to the current date; `None` when
the connection is down. -/
def get_attendance_stats (conn : Option DB) (today : Nat) : Option Stats :=
  (get_db_cursor conn
    (fun db =>
      let todays := db.attendance.filter (fun a => a.date == today)
      .ok (some ⟨db.attendance.length,
                 countStatus db.attendance "Present",
                 countStatus db.attendance "Absent",
                 countStatus db.attendance "Late",
                 countStatus todays "Present",
                 countStatus todays "Absent",
                 countStatus todays "Late"⟩, db))
    none).1

/-- Function `get_student_report` (src/app.py:210-221): the `GROUP BY status`
dictionary over the attendance rows of one student, as an association list
over the distinct statuses that occur; the empty dictionary when the
connection is down. -/
def get_student_report (conn : Option DB) (student_id : String) :
    List (String × Nat) :=
  (get_db_cursor conn
    (fun db =>
      let rows := db.attendance.filter (fun a => a.student_id == student_id)
      .ok (((rows.map (fun a => a.status)).dedup).map
             (fun s => (s, countStatus rows s)), db))
    []).1

/-- The attendance-rate formula used on the Dashboard and Reports pages
(src/app.py:313, 560, 625): `present / total * 100` guarded by
`if total > 0 else 0`. -/
def attendanceRate (present total : Nat) : ℚ :=
  if 0 < total then (present : ℚ) / (total : ℚ) * 100 else 0

/-- Model of the Python `str.strip()` method: drop leading and trailing
whitespace characters. -/
def pyStrip (s : String) : String :=
  ⟨((s.data.dropWhile Char.isWhitespace).reverse.dropWhile
      Char.isWhitespace).reverse⟩

/-- The `Add Student` form submit handler (src/app.py:360-369): when both
text inputs are truthy (non-empty) it calls
`add_student(student_id.strip(), name.strip(), department)`; otherwise no
repository call is made (`none`). -/
def add_student_form_submit (conn : Option DB) (fail : Option String)
    (student_id name department : String) :
    Option ((Bool × String) × Option DB) :=
  if !(student_id == "") && !(name == "") then
    some (add_student conn fail (pyStrip student_id) (pyStrip name) department)
  else
    none

/-- One user-triggered write operation, with its failure oracle. -/
inductive Op where
  | addS (fail : Option String) (student_id name department : String)
  | mark (fail : Bool) (student_id student_name status : String) (d t : Nat)
  | delS (fail : Bool) (student_id : String)
deriving Repr, DecidableEq

/-- The state reached after one write operation on a live connection. -/
def applyOp (db : DB) : Op → DB
  | .addS fail sid nm dept => ((add_student (some db) fail sid nm dept).2).getD db
  | .mark fail sid nm status d t =>
      ((save_attendance (some db) fail sid nm status d t).2).getD db
  | .delS fail sid => ((delete_student (some db) fail sid).2).getD db

/-- The state reached after a sequence of write operations. -/
def applyOps (db : DB) (ops : List Op) : DB :=
  ops.foldl applyOp db

/-- Referential integrity: every attendance row references an existing
student. -/
def fkInvariant (db : DB) : Bool :=
  db.attendance.all (fun a => studentIdExists db a.student_id)

/-- A one-student database used as a concrete input in witnesses and
counterexamples. -/
def dbAlice : DB := ⟨[⟨"STU001", "Alice", "Computer Science"⟩], []⟩

/-! ## Theorems -/

/-- C1: the claim says `delete_student` returns `false` when no student with
the given id exists.  Counterexample: on an empty store (where no student
`STU001` exists) `delete_student` still returns `true`, because the code
never inspects the affected-row count. -/
theorem c1_counterexample :
    studentIdExists emptyDB "STU001" = false ∧
    (delete_student (some emptyDB) false "STU001").1 = true := by
  decide

/-- C1 (amended): `delete_student` returns `true` whenever the database
operation succeeds — even when no student with that id exists — and in the
nonexistent-id case the students and attendance tables are unchanged; it
returns `false` only when the connection is down or the operation raises. -/
theorem c1_delete_nonexistent (db : DB) (sid : String)
    (h : studentIdExists db sid = false) :
    delete_student (some db) false sid = (true, some db) ∧
    delete_student (some db) true sid = (false, some db) ∧
    delete_student none false sid = (false, none) := by
  refine ⟨?_, rfl, rfl⟩
  simp [delete_student, get_db_cursor, sqlDeleteStudentCascade, h]

/-- C1 witness: the amended theorem applied to the empty store. -/
theorem c1_witness :
    delete_student (some emptyDB) false "STU001" = (true, some emptyDB) :=
  (c1_delete_nonexistent emptyDB "STU001" (by decide)).1

/-- C5: adding a student whose id is already present fails with the
duplicate-id outcome, leaves the store (hence the existing row) unmodified,
and that outcome is distinguishable from the generic storage-failure
message, from the connection-failure message, and from the success
message. -/
theorem c5_duplicate_id (db : DB) (sid nm dept : String)
    (h : studentIdExists db sid = true) :
    add_student (some db) none sid nm dept =
      ((false, "Student ID already exists!"), some db) ∧
    (∀ e : String, ("Student ID already exists!" : String) ≠ "Error: " ++ e) ∧
    ("Student ID already exists!" : String) ≠ "Database connection failed" ∧
    ("Student ID already exists!" : String) ≠ "Student added successfully!" := by
  refine ⟨?_, ?_, by decide, by decide⟩
  · simp [add_student, get_db_cursor, sqlInsertStudent, h]
  · intro e h2
    have h3 := congrArg String.data h2
    rw [String.data_append] at h3
    simp [String] at h3

/-- C5 witness: re-adding `STU001` over `dbAlice` fails with the
duplicate-id message and does not change the store. -/
theorem c5_witness :
    add_student (some dbAlice) none "STU001" "Bob" "Other" =
      ((false, "Student ID already exists!"), some dbAlice) :=
  (c5_duplicate_id dbAlice "STU001" "Bob" "Other" (by decide)).1

/-- C7: the attendance rate is `present / total * 100` when `total > 0` and
`0` when `total = 0`; in particular `attendanceRate 0 0 = 0` and
`attendanceRate 3 4 = 75`. -/
theorem c7_attendance_rate (present total : Nat) :
    (0 < total → attendanceRate present total = (present : ℚ) / (total : ℚ) * 100) ∧
    (total = 0 → attendanceRate present total = 0) ∧
    attendanceRate 0 0 = 0 ∧
    attendanceRate 3 4 = 75 := by
  refine ⟨fun h => by simp [attendanceRate, h], fun h => by simp [attendanceRate, h],
    by simp [attendanceRate], ?_⟩
  norm_num [attendanceRate]

/-- C7 witness: the rate formula instantiated at (3, 4). -/
theorem c7_witness : attendanceRate 3 4 = (3 : ℚ) / (4 : ℚ) * 100 :=
  (c7_attendance_rate 3 4).1 (by decide)

/-- C9: with the connection down (`get_connection` returned `None`), every
read returns its success-shaped empty value — `load_students`,
`load_attendance` and `get_student_report` return empty tables identical to
what they return on an empty store, while `get_attendance_stats` alone
returns `none`. -/
theorem c9_connection_down_reads :
    load_students none = [] ∧
    (∀ df sf stf, load_attendance none df sf stf = []) ∧
    (∀ sid, get_student_report none sid = []) ∧
    (∀ today, get_attendance_stats none today = none) ∧
    load_students none = load_students (some emptyDB) ∧
    (∀ df sf stf, load_attendance none df sf stf =
      load_attendance (some emptyDB) df sf stf) ∧
    (∀ sid, get_student_report none sid = get_student_report (some emptyDB) sid) := by
  refine ⟨rfl, fun _ _ _ => rfl, fun _ => rfl, fun _ => rfl, ?_,
    fun _ _ _ => ?_, fun _ => rfl⟩
  · simp [load_students, get_db_cursor, emptyDB]
  · simp [load_attendance, get_db_cursor, emptyDB]

/-- C10: a storage failure inside a write operation is rolled back and
suppressed, and the operation falls through to its fallback return value:
`delete_student` and `save_attendance` return `false` with the state
unchanged (also on a foreign-key violation), and `add_student` returns the
generic error message with the state unchanged. -/
theorem c10_exceptions_suppressed (db : DB) (sid nm status dept : String)
    (d t : Nat) (e : String) :
    delete_student (some db) true sid = (false, some db) ∧
    save_attendance (some db) true sid nm status d t = (false, some db) ∧
    (studentIdExists db sid = false →
      save_attendance (some db) false sid nm status d t = (false, some db)) ∧
    add_student (some db) (some e) sid nm dept =
      ((false, "Error: " ++ e), some db) := by
  refine ⟨rfl, rfl, fun h => ?_, rfl⟩
  simp [save_attendance, get_db_cursor, sqlInsertAttendance, h]

/-- C10 witness: the suppression theorem applied to the empty store. -/
theorem c10_witness :
    delete_student (some emptyDB) true "STU001" = (false, some emptyDB) ∧
    save_attendance (some emptyDB) false "STU001" "Alice" "Present" 20 540 =
      (false, some emptyDB) :=
  ⟨(c10_exceptions_suppressed emptyDB "STU001" "Alice" "Present" "CS" 20 540 "boom").1,
   (c10_exceptions_suppressed emptyDB "STU001" "Alice" "Present" "CS" 20 540 "boom").2.2.1
     (by decide)⟩

/-- C3: the claim says a status outside {Present, Absent, Late} is rejected
before reaching storage.  Counterexample: `save_attendance` inserts a row
with status `Bogus` for an existing student — no validation happens in the
repository function. -/
theorem c3_counterexample :
    ¬("Bogus" = "Present" ∨ "Bogus" = "Absent" ∨ "Bogus" = "Late") ∧
    save_attendance (some dbAlice) false "STU001" "Alice" "Bogus" 20 540 =
      (true, some ⟨dbAlice.students, [⟨"STU001", "Alice", 20, 540, "Bogus"⟩]⟩) := by
  constructor
  · decide
  · decide

/-- C3 (amended): `save_attendance` performs no validation of `status`: for
an existing student it inserts a row carrying exactly the status string it
was given, whatever that string is.  (The UI restricts the choices offered
to {Present, Absent, Late}; the repository layer does not.) -/
theorem c3_no_status_validation (db : DB) (sid nm status : String) (d t : Nat)
    (h : studentIdExists db sid = true) :
    save_attendance (some db) false sid nm status d t =
      (true, some ⟨db.students, db.attendance ++ [⟨sid, nm, d, t, status⟩]⟩) := by
  simp [save_attendance, get_db_cursor, sqlInsertAttendance, h]

/-- C3 witness: the amended theorem applied with status `Sick`. -/
theorem c3_witness :
    save_attendance (some dbAlice) false "STU001" "Alice" "Sick" 21 600 =
      (true, some ⟨dbAlice.students,
                   dbAlice.attendance ++ [⟨"STU001", "Alice", 21, 600, "Sick"⟩]⟩) :=
  c3_no_status_validation dbAlice "STU001" "Alice" "Sick" 21 600 (by decide)

/-- C4: the claim says the repository function `add_student` trims
whitespace from id and name.  Counterexample: `add_student` called directly
with padded arguments stores them verbatim (the trimming happens in the form
submit handler, not in the repository function). -/
theorem c4_counterexample :
    (" STU001 " : String) ≠ "STU001" ∧
    add_student (some emptyDB) none " STU001 " " Alice " "Computer Science" =
      ((true, "Student added successfully!"),
       some ⟨[⟨" STU001 ", " Alice ", "Computer Science"⟩], []⟩) := by
  constructor
  · decide
  · decide

/-- C4 (amended): the trimming happens in the Add-Student form submit
handler, which calls `add_student(student_id.strip(), name.strip(),
department)`; `add_student` itself inserts its arguments verbatim, so a row
stored through the form carries the stripped id and name. -/
theorem c4_form_strips_whitespace (db : DB) (student_id name department : String)
    (hid : (student_id == "") = false) (hname : (name == "") = false)
    (hdup : studentIdExists db (pyStrip student_id) = false) :
    add_student_form_submit (some db) none student_id name department =
      some ((true, "Student added successfully!"),
        some ⟨db.students ++ [⟨pyStrip student_id, pyStrip name, department⟩],
              db.attendance⟩) := by
  simp [add_student_form_submit, hid, hname, add_student, get_db_cursor,
    sqlInsertStudent, hdup]

/-- C4 witness: submitting the form with padded inputs stores the stripped
values. -/
theorem c4_witness :
    add_student_form_submit (some emptyDB) none " STU001 " " Alice " "Computer Science" =
      some ((true, "Student added successfully!"),
        some ⟨[⟨pyStrip " STU001 ", pyStrip " Alice ", "Computer Science"⟩], []⟩) ∧
    pyStrip " STU001 " = "STU001" ∧ pyStrip " Alice " = "Alice" :=
  ⟨c4_form_strips_whitespace emptyDB " STU001 " " Alice " "Computer Science"
      (by decide) (by decide) (by decide),
   by decide, by decide⟩

/-- C8: each write operation is all-or-nothing: its post-state is either the
pre-state (the transaction rolled back, or the statement rejected) or the
complete effect of the operation, and under an injected mid-operation
failure the post-state is exactly the pre-state. -/
theorem c8_atomic_writes (db : DB) (failA : Option String) (failB failC : Bool)
    (sid nm dept sid2 nm2 status : String) (d t : Nat) :
    ((add_student (some db) failA sid nm dept).2 = some db ∨
      (add_student (some db) failA sid nm dept).2 =
        some ⟨db.students ++ [⟨sid, nm, dept⟩], db.attendance⟩) ∧
    (failA.isSome = true → (add_student (some db) failA sid nm dept).2 = some db) ∧
    ((save_attendance (some db) failB sid2 nm2 status d t).2 = some db ∨
      (save_attendance (some db) failB sid2 nm2 status d t).2 =
        some ⟨db.students, db.attendance ++ [⟨sid2, nm2, d, t, status⟩]⟩) ∧
    (failB = true → (save_attendance (some db) failB sid2 nm2 status d t).2 = some db) ∧
    ((delete_student (some db) failC sid).2 = some db ∨
      (delete_student (some db) failC sid).2 =
        some ⟨db.students.filter (fun s => !(s.id == sid)),
              db.attendance.filter (fun a => !(a.student_id == sid))⟩) ∧
    (failC = true → (delete_student (some db) failC sid).2 = some db) := by
  refine ⟨?_, ?_, ?_, ?_, ?_, ?_⟩
  · cases failA with
    | some e => exact .inl rfl
    | none =>
      by_cases h : studentIdExists db sid
      · exact .inl (by simp [add_student, get_db_cursor, sqlInsertStudent, h])
      · exact .inr (by simp [add_student, get_db_cursor, sqlInsertStudent, h])
  · intro hf
    cases failA with
    | some e => rfl
    | none => simp at hf
  · cases failB with
    | true => exact .inl rfl
    | false =>
      by_cases h : studentIdExists db sid2
      · exact .inr (by simp [save_attendance, get_db_cursor, sqlInsertAttendance, h])
      · exact .inl (by simp [save_attendance, get_db_cursor, sqlInsertAttendance, h])
  · intro hf
    subst hf
    rfl
  · cases failC with
    | true => exact .inl rfl
    | false =>
      by_cases h : studentIdExists db sid
      · exact .inr (by simp [delete_student, get_db_cursor, sqlDeleteStudentCascade, h])
      · exact .inl (by simp [delete_student, get_db_cursor, sqlDeleteStudentCascade, h])
  · intro hf
    subst hf
    rfl

/-- C8 witness: the atomicity theorem applied to `dbAlice` with injected
failures on every operation. -/
theorem c8_witness :
    (add_student (some dbAlice) (some "disk full") "STU002" "Bob" "Other").2 =
      some dbAlice ∧
    (save_attendance (some dbAlice) true "STU001" "Alice" "Present" 20 540).2 =
      some dbAlice ∧
    (delete_student (some dbAlice) true "STU001").2 = some dbAlice :=
  ⟨(c8_atomic_writes dbAlice (some "disk full") true true "STU002" "Bob" "Other"
      "STU001" "Alice" "Present" 20 540).2.1 rfl,
   (c8_atomic_writes dbAlice (some "disk full") true true "STU001" "Bob" "Other"
      "STU001" "Alice" "Present" 20 540).2.2.2.1 rfl,
   (c8_atomic_writes dbAlice (some "disk full") true true "STU001" "Bob" "Other"
      "STU001" "Alice" "Present" 20 540).2.2.2.2.2 rfl⟩

/-- Unfolding of the referential-integrity invariant. -/
theorem fkInvariant_iff (db : DB) :
    fkInvariant db = true ↔
      ∀ a ∈ db.attendance, ∃ s ∈ db.students, s.id = a.student_id := by
  simp [fkInvariant, List.all_eq_true, studentIdExists, List.any_eq_true]

/-- Appending a student row preserves referential integrity. -/
theorem fkInvariant_addStudent (db : DB) (sid nm dept : String)
    (h : fkInvariant db = true) :
    fkInvariant ⟨db.students ++ [⟨sid, nm, dept⟩], db.attendance⟩ = true := by
  rw [fkInvariant_iff] at h ⊢
  intro a ha
  obtain ⟨s, hs, hid⟩ := h a ha
  exact ⟨s, List.mem_append.2 (.inl hs), hid⟩

/-- Appending an attendance row for an existing student preserves
referential integrity. -/
theorem fkInvariant_markAttendance (db : DB) (sid nm status : String) (d t : Nat)
    (hex : studentIdExists db sid = true) (h : fkInvariant db = true) :
    fkInvariant ⟨db.students, db.attendance ++ [⟨sid, nm, d, t, status⟩]⟩ = true := by
  rw [fkInvariant_iff] at h ⊢
  intro a ha
  rcases List.mem_append.1 ha with ha1 | ha2
  · exact h a ha1
  · simp only [List.mem_singleton] at ha2
    subst ha2
    simp only [studentIdExists, List.any_eq_true, beq_iff_eq] at hex
    exact hex

/-- The cascading delete preserves referential integrity: every surviving
attendance row references a surviving student. -/
theorem fkInvariant_deleteCascade (db : DB) (sid : String)
    (h : fkInvariant db = true) :
    fkInvariant (sqlDeleteStudentCascade db sid) = true := by
  unfold sqlDeleteStudentCascade
  by_cases hex : studentIdExists db sid
  · rw [if_pos hex, fkInvariant_iff]
    rw [fkInvariant_iff] at h
    intro a ha
    rw [List.mem_filter] at ha
    obtain ⟨ha1, ha2⟩ := ha
    obtain ⟨s, hs, hid⟩ := h a ha1
    refine ⟨s, List.mem_filter.2 ⟨hs, ?_⟩, hid⟩
    simp only [Bool.not_eq_true', beq_eq_false_iff_ne] at ha2 ⊢
    rw [hid]
    exact ha2
  · rw [if_neg hex]
    exact h

/-- Every single write operation preserves referential integrity. -/
theorem fkInvariant_applyOp (db : DB) (op : Op) (h : fkInvariant db = true) :
    fkInvariant (applyOp db op) = true := by
  cases op with
  | addS fail sid nm dept =>
    cases fail with
    | some e => simpa [applyOp, add_student, get_db_cursor] using h
    | none =>
      by_cases hex : studentIdExists db sid
      · simpa [applyOp, add_student, get_db_cursor, sqlInsertStudent, hex] using h
      · simpa [applyOp, add_student, get_db_cursor, sqlInsertStudent, hex] using
          fkInvariant_addStudent db sid nm dept h
  | mark fail sid nm status d t =>
    cases fail with
    | true => simpa [applyOp, save_attendance, get_db_cursor] using h
    | false =>
      by_cases hex : studentIdExists db sid
      · simpa [applyOp, save_attendance, get_db_cursor, sqlInsertAttendance, hex] using
          fkInvariant_markAttendance db sid nm status d t hex h
      · simpa [applyOp, save_attendance, get_db_cursor, sqlInsertAttendance, hex] using h
  | delS fail sid =>
    cases fail with
    | true => simpa [applyOp, delete_student, get_db_cursor] using h
    | false =>
      simpa [applyOp, delete_student, get_db_cursor] using
        fkInvariant_deleteCascade db sid h

/-- Referential integrity is preserved by any sequence of write
operations. -/
theorem fkInvariant_applyOps (db : DB) (ops : List Op) (h : fkInvariant db = true) :
    fkInvariant (applyOps db ops) = true := by
  induction ops generalizing db with
  | nil => simpa [applyOps] using h
  | cons op ops ih =>
    simpa [applyOps] using ih (applyOp db op) (fkInvariant_applyOp db op h)

/-- C2: deleting an existing student removes, in one atomic step, the
student row and every attendance row referencing it (no partial cascade is
ever a reachable state), and referential integrity — no attendance row
references a nonexistent student — holds for the fresh store and is
preserved by every sequence of write operations. -/
theorem c2_cascade_delete_invariant (db : DB) (sid : String) (ops : List Op)
    (hex : studentIdExists db sid = true) (hinv : fkInvariant db = true) :
    delete_student (some db) false sid =
      (true, some ⟨db.students.filter (fun s => !(s.id == sid)),
                   db.attendance.filter (fun a => !(a.student_id == sid))⟩) ∧
    fkInvariant emptyDB = true ∧
    fkInvariant (applyOps db ops) = true := by
  refine ⟨?_, rfl, fkInvariant_applyOps db ops hinv⟩
  simp [delete_student, get_db_cursor, sqlDeleteStudentCascade, hex]

/-- A database with one student and one attendance row, used as a concrete
input in witnesses. -/
def dbAliceMarked : DB :=
  ⟨[⟨"STU001", "Alice", "Computer Science"⟩],
   [⟨"STU001", "Alice", 20, 540, "Present"⟩]⟩

/-- C2 witness: the cascade theorem applied to a store with one student and
one attendance row, with a nonempty operation sequence. -/
theorem c2_witness :
    delete_student (some dbAliceMarked) false "STU001" =
      (true, some ⟨dbAliceMarked.students.filter (fun s => !(s.id == "STU001")),
                   dbAliceMarked.attendance.filter
                     (fun a => !(a.student_id == "STU001"))⟩) ∧
    fkInvariant (applyOps dbAliceMarked
      [.addS none "STU002" "Bob" "Other", .delS false "STU001"]) = true :=
  ⟨(c2_cascade_delete_invariant dbAliceMarked "STU001" [] (by decide) (by decide)).1,
   (c2_cascade_delete_invariant dbAliceMarked "STU001"
      [.addS none "STU002" "Bob" "Other", .delS false "STU001"]
      (by decide) (by decide)).2.2⟩

/-- A Boolean `if _ then true else x` is the disjunction of its condition
with `x`. -/
theorem if_true_or (c x : Bool) : (if c = true then true else x) = (c || x) := by
  cases c <;> simp

/-- The output order of `load_attendance` is transitive. -/
theorem attOrder_trans (a b c : AttRow) (h1 : attOrder a b) (h2 : attOrder b c) :
    attOrder a c := by
  simp only [attOrder, Bool.or_eq_true, Bool.and_eq_true, decide_eq_true_eq,
    beq_iff_eq] at h1 h2 ⊢
  omega

/-- The output order of `load_attendance` is total. -/
theorem attOrder_total (a b : AttRow) : attOrder a b || attOrder b a := by
  simp only [attOrder, Bool.or_eq_true, Bool.and_eq_true, decide_eq_true_eq,
    beq_iff_eq]
  omega

/-- The `WHERE` clause is the conjunction of the three independent
conditions, each trivial when its filter is absent, empty or `All`. -/
theorem matchesFilters_eq_conj (df : Option Nat) (sf stf : Option String) :
    matchesFilters df sf stf = fun a =>
      ((match df with | none => true | some d => a.date == d) &&
       (match sf with
        | none => true
        | some s => s == "" || s == "All" || a.student_id == s) &&
       (match stf with
        | none => true
        | some s => s == "" || s == "All" || a.status == s)) := by
  funext a
  unfold matchesFilters
  cases sf <;> cases stf <;> simp only [if_true_or, Bool.or_assoc]

/-- C6: `load_attendance` returns exactly (as a multiset) the attendance
rows satisfying all supplied filters conjunctively — an absent, empty or
`All` filter value imposes no constraint — sorted by date descending then
time descending, and returns the empty sequence when no row matches. -/
theorem c6_query_filters (db : DB) (df : Option Nat) (sf stf : Option String) :
    List.Perm (load_attendance (some db) df sf stf)
      (db.attendance.filter (fun a =>
        ((match df with | none => true | some d => a.date == d) &&
         (match sf with
          | none => true
          | some s => s == "" || s == "All" || a.student_id == s) &&
         (match stf with
          | none => true
          | some s => s == "" || s == "All" || a.status == s)))) ∧
    List.Pairwise (fun a b => b.date < a.date ∨ (b.date = a.date ∧ b.time ≤ a.time))
      (load_attendance (some db) df sf stf) ∧
    ((∀ a ∈ db.attendance, matchesFilters df sf stf a = false) →
      load_attendance (some db) df sf stf = []) := by
  have hload : load_attendance (some db) df sf stf =
      (db.attendance.filter (matchesFilters df sf stf)).mergeSort attOrder := rfl
  refine ⟨?_, ?_, ?_⟩
  · rw [hload, ← matchesFilters_eq_conj df sf stf]
    exact List.mergeSort_perm _ attOrder
  · rw [hload]
    refine (List.sorted_mergeSort (fun a b c => attOrder_trans a b c)
      attOrder_total _).imp ?_
    intro a b hab
    simpa only [attOrder, Bool.or_eq_true, Bool.and_eq_true, decide_eq_true_eq,
      beq_iff_eq] using hab
  · intro hnone
    rw [hload, List.filter_eq_nil_iff.2 (fun a ha => by simp [hnone a ha]),
      List.mergeSort_nil]

/-- A database with records across two dates and two students, used as a
concrete input in the C6 witness. -/
def dbTwo : DB :=
  ⟨[⟨"STU001", "Alice", "Computer Science"⟩, ⟨"STU002", "Bob", "Other"⟩],
   [⟨"STU001", "Alice", 20, 540, "Present"⟩,
    ⟨"STU002", "Bob", 20, 550, "Absent"⟩,
    ⟨"STU001", "Alice", 21, 530, "Late"⟩]⟩

/-- C6 witness: on `dbTwo`, a date filter matching no record yields the
empty sequence. -/
theorem c6_witness :
    load_attendance (some dbTwo) (some 99) none none = [] :=
  (c6_query_filters dbTwo (some 99) none none).2.2 (by decide)

end AttendanceTracker
